import Mathlib

/-!
# The text relay pipeline of `relay/controller/text.go`

A shallow embedding of `RelayTextHelper` and `getRequestBody`.

The pipeline talks to collaborators that live outside the file (the request
validator, the pricing tables, the quota ledger, the adaptor registry, the
adaptors, the upstream classifier).  They are gathered in a record `World`
of functions; a run of the pipeline is a pure function of the world, the
inbound context and the request meta, and yields

* the ordered list of calls it made to the collaborators (`Event`s), with the
  arguments of each call,
* the final contents of `*meta`,
* the returned `*model.ErrorWithStatusCode` (`none` is Go's `nil`).

Calls to `logger` are not recorded.  `float64` is an abstract type `F` with an
abstract multiplication: nothing in the file depends on the arithmetic of
floating point numbers.
-/

namespace OneApi

/-! ## Data model -/

/-- Go `error` values, identified by their message. -/
abbrev GoError := String

/-- A byte slice. -/
abbrev Bytes := List UInt8

/-- The constant `http.StatusBadRequest`. -/
def StatusBadRequest : Int := 400

/-- The constant `http.StatusInternalServerError`. -/
def StatusInternalServerError : Int := 500

/-- A read-once byte stream (an `io.ReadCloser`): reading it yields `data` and
then either ends (`err = none`) or fails with the read error `err`. -/
structure BodyStream where
  data : Bytes
  err : Option GoError
deriving DecidableEq, Repr

/-- The function `io.ReadAll`: the bytes read before the end of the stream or
before the failure, and the read error if there was one. -/
def ioReadAll (b : BodyStream) : Bytes × Option GoError := (b.data, b.err)

/-- The stream `io.NopCloser(bytes.NewBuffer(data))`: it yields `data` and ends. -/
def nopCloserBuffer (data : Bytes) : BodyStream := { data := data, err := none }

/-- The fields of `http.Response` the pipeline can observe; `Body = none` is a
nil body. -/
structure Response where
  StatusCode : Int
  Header : List (String × String)
  Body : Option BodyStream
deriving DecidableEq, Repr

/-- The part of `gin.Context` the file reads: `c.Request.Body`. -/
structure Context where
  RequestBody : BodyStream
deriving DecidableEq, Repr

/-- The `io.Reader` values that `getRequestBody` can produce: the inbound body
object itself, or a fresh buffer over a byte slice. -/
inductive Reader where
  | requestBody (b : BodyStream)
  | bytesBuffer (data : Bytes)
deriving DecidableEq, Repr

/-- The fields of `meta.Meta` that the file reads or writes. -/
structure Meta where
  Mode : Int
  ChannelType : Int
  APIType : Int
  TokenId : Int
  Group : String
  ModelMapping : List (String × String)
  ForcedSystemPrompt : String
  IsStream : Bool
  OriginModelName : String
  ActualModelName : String
  PromptTokens : Int
deriving DecidableEq, Repr

/-- The request `model.GeneralOpenAIRequest`: the two fields the file names, and
all its other fields (messages, generation parameters, ...) as `Rest`. -/
structure GeneralOpenAIRequest (X : Type) where
  Model : String
  Stream : Bool
  Rest : X
deriving DecidableEq, Repr

section Pipeline

variable (F U Q X E : Type)

/-- The methods of `adaptor.Adaptor` that the file calls.  `U` is the type of
`*model.Usage` values, `Q` the type of converted requests, `E` the type of
`model.ErrorWithStatusCode` values. -/
structure Adaptor where
  ConvertRequest : Context → Int → GeneralOpenAIRequest X → Except GoError Q
  DoRequest : Context → Meta → Option Reader → Except GoError (Option Response)
  DoResponse : Context → Option Response → Meta → U × Option E

/-- The collaborators of the pipeline and the two configuration switches.

The functions `getAndValidateTextRequest`, `getMappedModelName`,
`setSystemPrompt`, `getPromptTokens`, `preConsumeQuota`, `isErrorHappened`,
`RelayErrorHandler` and `openai.ErrorWrapper`, the constants `apitype.OpenAI`
and `channeltype.Baichuan`, and the packages `billing`, `billingratio` and
`relay` are not part of the file: each is a parameter here, and every theorem
holds for all their values.  Their types record what the spec says of them:
`setSystemPrompt` rewrites the message payload of the request and leaves its
model field alone, only the pipeline writes `meta`, and `ErrorWrapper` and
`RelayErrorHandler` always build a canonical error (never nil).  A call that
returns `(value, error)` with the value unused on error is an `Except`. -/
structure World where
  DebugEnabled : Bool
  EnforceIncludeUsage : Bool
  apitypeOpenAI : Int
  channeltypeBaichuan : Int
  getAndValidateTextRequest : Context → Int → Except GoError (GeneralOpenAIRequest X)
  getMappedModelName : String → List (String × String) → String × Bool
  setSystemPrompt : X → String → X × Bool
  GetModelRatio : String → Int → F
  GetGroupRatio : String → F
  fmul : F → F → F
  getPromptTokens : GeneralOpenAIRequest X → Int → Int
  preConsumeQuota : GeneralOpenAIRequest X → Int → F → Meta → Except E Int
  GetAdaptor : Int → Option (Adaptor U Q X E)
  jsonMarshal : Q → Except GoError Bytes
  isErrorHappened : Meta → Option Response → Bool
  RelayErrorHandler : Option Response → E
  ErrorWrapper : GoError → String → Int → E

/-- One call made by the pipeline, with its arguments (and its result where a
later step depends on it). -/
inductive Event where
  | getAndValidateTextRequest (mode : Int)
  | getMappedModelName (name : String) (mapping : List (String × String))
  | setSystemPrompt (rest : X) (prompt : String)
  | GetModelRatio (name : String) (channelType : Int)
  | GetGroupRatio (group : String)
  | getPromptTokens (req : GeneralOpenAIRequest X) (mode : Int)
  | preConsumeQuota (req : GeneralOpenAIRequest X) (promptTokens : Int) (ratio : F)
      (m : Meta) (res : Except E Int)
  | GetAdaptor (apiType : Int) (found : Bool)
  | Init (m : Meta)
  | ConvertRequest (mode : Int) (req : GeneralOpenAIRequest X)
  | jsonMarshal (v : Q)
  | DoRequest (m : Meta) (body : Option Reader)
  | ioReadAll (body : BodyStream)
  | isErrorHappened (m : Meta) (resp : Option Response)
  | ReturnPreConsumedQuota (preConsumedQuota : Int) (tokenId : Int)
  | RelayErrorHandler (resp : Option Response)
  | DoResponse (resp : Option Response) (m : Meta) (usage : U) (err : Option E)
  | postConsumeQuota (usage : U) (m : Meta) (req : GeneralOpenAIRequest X) (ratio : F)
      (preConsumedQuota : Int) (modelRatio : F) (groupRatio : F) (systemPromptReset : Bool)

/-- The result of one run of `RelayTextHelper`. -/
structure Outcome where
  trace : List (Event F U Q X E)
  finalMeta : Meta
  ret : Option E

/-- The local variables of `RelayTextHelper` when it reaches `preConsumeQuota`. -/
structure Normalized where
  m : Meta
  textRequest : GeneralOpenAIRequest X
  systemPromptReset : Bool
  modelRatio : F
  groupRatio : F
  ratio : F
  promptTokens : Int

end Pipeline

section Code

variable {F U Q X E : Type}

/-- Lines 34 to 48 of `RelayTextHelper`: the stream flag, the alias
substitution, the forced system prompt, the two ratios and the prompt tokens. -/
def normalize (w : World F U Q X E) (m : Meta) (textRequest : GeneralOpenAIRequest X) :
    Normalized F X :=
  let m := { m with IsStream := textRequest.Stream }
  let m := { m with OriginModelName := textRequest.Model }
  let textRequest :=
    { textRequest with Model := (w.getMappedModelName textRequest.Model m.ModelMapping).1 }
  let m := { m with ActualModelName := textRequest.Model }
  let sp := w.setSystemPrompt textRequest.Rest m.ForcedSystemPrompt
  let textRequest := { textRequest with Rest := sp.1 }
  let modelRatio := w.GetModelRatio textRequest.Model m.ChannelType
  let groupRatio := w.GetGroupRatio m.Group
  let ratio := w.fmul modelRatio groupRatio
  let promptTokens := w.getPromptTokens textRequest m.Mode
  let m := { m with PromptTokens := promptTokens }
  { m := m, textRequest := textRequest, systemPromptReset := sp.2, modelRatio := modelRatio,
    groupRatio := groupRatio, ratio := ratio, promptTokens := promptTokens }

/-- The calls made by lines 34 to 48 of `RelayTextHelper`, in order. -/
def normalizeTrace (w : World F U Q X E) (m : Meta) (textRequest : GeneralOpenAIRequest X) :
    List (Event F U Q X E) :=
  let n := normalize w m textRequest
  [ .getMappedModelName textRequest.Model m.ModelMapping,
    .setSystemPrompt textRequest.Rest m.ForcedSystemPrompt,
    .GetModelRatio n.textRequest.Model m.ChannelType,
    .GetGroupRatio m.Group,
    .getPromptTokens n.textRequest m.Mode ]

/-- The function `getRequestBody`: the calls it makes, and the pair
`(io.Reader, error)` it returns. -/
def getRequestBody (w : World F U Q X E) (c : Context) (m : Meta)
    (textRequest : GeneralOpenAIRequest X) (adaptor : Adaptor U Q X E) :
    List (Event F U Q X E) × Option Reader × Option GoError :=
  if !w.EnforceIncludeUsage &&
      decide (m.APIType = w.apitypeOpenAI) &&
      decide (m.OriginModelName = m.ActualModelName) &&
      decide (m.ChannelType ≠ w.channeltypeBaichuan) &&
      decide (m.ForcedSystemPrompt = "") then
    ([], some (Reader.requestBody c.RequestBody), none)
  else
    match adaptor.ConvertRequest c m.Mode textRequest with
    | .error err => ([.ConvertRequest m.Mode textRequest], none, some err)
    | .ok convertedRequest =>
      match w.jsonMarshal convertedRequest with
      | .error err =>
        ([.ConvertRequest m.Mode textRequest, .jsonMarshal convertedRequest], none, some err)
      | .ok jsonData =>
        ([.ConvertRequest m.Mode textRequest, .jsonMarshal convertedRequest],
          some (Reader.bytesBuffer jsonData), none)

/-- Lines 74 to 88 of `RelayTextHelper`: the diagnostic capture of the upstream
response.  It returns the streams it read with `io.ReadAll` and the response
that the later steps see. -/
def captureResponse (debugEnabled : Bool) (resp : Option Response) :
    List BodyStream × Option Response :=
  if debugEnabled then
    match resp with
    | some r =>
      match r.Body with
      | some body =>
        let bodyBytes := (ioReadAll body).1
        ([body], some { r with Body := some (nopCloserBuffer bodyBytes) })
      | none => ([], resp)
    | none => ([], resp)
  else ([], resp)

/-- Lines 73 to 103 of `RelayTextHelper`: everything after a successful
`adaptor.DoRequest`.  It returns the calls made and the returned error. -/
def afterTransport (w : World F U Q X E) (c : Context) (n : Normalized F X)
    (preConsumedQuota : Int) (adaptor : Adaptor U Q X E) (resp : Option Response) :
    List (Event F U Q X E) × Option E :=
  let captured : List (Event F U Q X E) :=
    (captureResponse w.DebugEnabled resp).1.map .ioReadAll
  let resp := (captureResponse w.DebugEnabled resp).2
  if w.isErrorHappened n.m resp then
    (captured ++ [.isErrorHappened n.m resp,
               .ReturnPreConsumedQuota preConsumedQuota n.m.TokenId,
               .RelayErrorHandler resp],
     some (w.RelayErrorHandler resp))
  else
    match adaptor.DoResponse c resp n.m with
    | (usage, some respErr) =>
      (captured ++ [.isErrorHappened n.m resp,
                 .DoResponse resp n.m usage (some respErr),
                 .ReturnPreConsumedQuota preConsumedQuota n.m.TokenId],
       some respErr)
    | (usage, none) =>
      (captured ++ [.isErrorHappened n.m resp,
                 .DoResponse resp n.m usage none,
                 .postConsumeQuota usage n.m n.textRequest n.ratio preConsumedQuota
                   n.modelRatio n.groupRatio n.systemPromptReset],
       none)

/-- The function `RelayTextHelper`. -/
def RelayTextHelper (w : World F U Q X E) (c : Context) (m : Meta) : Outcome F U Q X E :=
  match w.getAndValidateTextRequest c m.Mode with
  | .error err =>
    { trace := [.getAndValidateTextRequest m.Mode],
      finalMeta := m,
      ret := some (w.ErrorWrapper err "invalid_text_request" StatusBadRequest) }
  | .ok textRequest =>
    let n := normalize w m textRequest
    let t₁ : List (Event F U Q X E) :=
      .getAndValidateTextRequest m.Mode :: normalizeTrace w m textRequest
    match w.preConsumeQuota n.textRequest n.promptTokens n.ratio n.m with
    | .error bizErr =>
      { trace := t₁ ++ [.preConsumeQuota n.textRequest n.promptTokens n.ratio n.m (.error bizErr)],
        finalMeta := n.m,
        ret := some bizErr }
    | .ok preConsumedQuota =>
      let t₂ := t₁ ++
        [.preConsumeQuota n.textRequest n.promptTokens n.ratio n.m (.ok preConsumedQuota)]
      match w.GetAdaptor n.m.APIType with
      | none =>
        { trace := t₂ ++ [.GetAdaptor n.m.APIType false],
          finalMeta := n.m,
          ret := some (w.ErrorWrapper ("invalid api type: " ++ toString n.m.APIType)
                  "invalid_api_type" StatusBadRequest) }
      | some adaptor =>
        let rb := getRequestBody w c n.m n.textRequest adaptor
        let t₃ := t₂ ++ [.GetAdaptor n.m.APIType true, .Init n.m] ++ rb.1
        match rb.2.2 with
        | some err =>
          { trace := t₃,
            finalMeta := n.m,
            ret := some (w.ErrorWrapper err "convert_request_failed" StatusInternalServerError) }
        | none =>
          let requestBody := rb.2.1
          match adaptor.DoRequest c n.m requestBody with
          | .error err =>
            { trace := t₃ ++ [.DoRequest n.m requestBody],
              finalMeta := n.m,
              ret := some (w.ErrorWrapper err "do_request_failed" StatusInternalServerError) }
          | .ok resp =>
            let fin := afterTransport w c n preConsumedQuota adaptor resp
            { trace := t₃ ++ [.DoRequest n.m requestBody] ++ fin.1,
              finalMeta := n.m,
              ret := fin.2 }

/-! ## Observations on a trace -/

/-- The refunds in a trace: the arguments `(preConsumedQuota, tokenId)` of each
call of `billing.ReturnPreConsumedQuota`, in order. -/
def refunds (t : List (Event F U Q X E)) : List (Int × Int) :=
  t.filterMap fun
    | .ReturnPreConsumedQuota q tok => some (q, tok)
    | _ => none

/-- The settlements started in a trace: the usage and the reserved amount
handed to each `go postConsumeQuota`, in order. -/
def settlements (t : List (Event F U Q X E)) : List (U × Int) :=
  t.filterMap fun
    | .postConsumeQuota usage _ _ _ q _ _ _ => some (usage, q)
    | _ => none

/-- The ratios handed to the settlements of a trace: `(ratio, modelRatio, groupRatio)`. -/
def settlementRatios (t : List (Event F U Q X E)) : List (F × F × F) :=
  t.filterMap fun
    | .postConsumeQuota _ _ _ r _ mr gr _ => some (r, mr, gr)
    | _ => none

/-- The reservations in a trace: the model, the prompt tokens and the ratio
handed to each call of `preConsumeQuota`, in order. -/
def reservations (t : List (Event F U Q X E)) : List (String × Int × F) :=
  t.filterMap fun
    | .preConsumeQuota req p r _ _ => some (req.Model, p, r)
    | _ => none

/-- The amounts reserved in a trace: the result of each call of
`preConsumeQuota` that returned no error. -/
def reserved (t : List (Event F U Q X E)) : List Int :=
  t.filterMap fun
    | .preConsumeQuota _ _ _ _ (.ok q) => some q
    | _ => none

/-- The pricing queries of a trace: the arguments of each `GetModelRatio`. -/
def modelRatioQueries (t : List (Event F U Q X E)) : List (String × Int) :=
  t.filterMap fun
    | .GetModelRatio name ct => some (name, ct)
    | _ => none

/-- The group queries of a trace: the argument of each `GetGroupRatio`. -/
def groupRatioQueries (t : List (Event F U Q X E)) : List String :=
  t.filterMap fun
    | .GetGroupRatio g => some g
    | _ => none

/-- The adaptor lookups of a trace. -/
def adaptorLookups (t : List (Event F U Q X E)) : List Int :=
  t.filterMap fun
    | .GetAdaptor a _ => some a
    | _ => none

/-- The network calls of a trace: the body handed to each `adaptor.DoRequest`. -/
def networkCalls (t : List (Event F U Q X E)) : List (Option Reader) :=
  t.filterMap fun
    | .DoRequest _ body => some body
    | _ => none

/-- The conversions of a trace: the mode and the model of the request handed
to each `adaptor.ConvertRequest`. -/
def conversions (t : List (Event F U Q X E)) : List (Int × GeneralOpenAIRequest X) :=
  t.filterMap fun
    | .ConvertRequest mode req => some (mode, req)
    | _ => none

/-- The values handed to `json.Marshal` in a trace. -/
def marshals (t : List (Event F U Q X E)) : List Q :=
  t.filterMap fun
    | .jsonMarshal v => some v
    | _ => none

/-- The materializations of a trace: the response handed to each
`adaptor.DoResponse` and the usage and error it returned. -/
def materializations (t : List (Event F U Q X E)) : List (Option Response × U × Option E) :=
  t.filterMap fun
    | .DoResponse resp _ usage err => some (resp, usage, err)
    | _ => none

/-- The classifications of a trace: the response handed to each `isErrorHappened`. -/
def classifications (t : List (Event F U Q X E)) : List (Option Response) :=
  t.filterMap fun
    | .isErrorHappened _ resp => some resp
    | _ => none

/-- The prompt-token estimates of a trace: the request handed to each `getPromptTokens`. -/
def promptEstimates (t : List (Event F U Q X E)) : List (GeneralOpenAIRequest X × Int) :=
  t.filterMap fun
    | .getPromptTokens req mode => some (req, mode)
    | _ => none

/-- Whether an event is a call of `preConsumeQuota`. -/
def Event.isReservation : Event F U Q X E → Bool
  | .preConsumeQuota .. => true
  | _ => false

/-- Whether an event is a call of `adaptor.DoRequest`. -/
def Event.isNetworkCall : Event F U Q X E → Bool
  | .DoRequest .. => true
  | _ => false

/-! ## The paths of a run -/

/-- The calls of a run up to and including a successful reservation of `q`. -/
def reservedPrefix (w : World F U Q X E) (m : Meta) (req : GeneralOpenAIRequest X) (q : Int) :
    List (Event F U Q X E) :=
  .getAndValidateTextRequest m.Mode :: normalizeTrace w m req ++
    [.preConsumeQuota (normalize w m req).textRequest (normalize w m req).promptTokens
      (normalize w m req).ratio (normalize w m req).m (.ok q)]

/-- The lists of calls that `getRequestBody` can make. -/
def BodyTrace (m : Meta) (req : GeneralOpenAIRequest X) (t : List (Event F U Q X E)) : Prop :=
  t = [] ∨ t = [.ConvertRequest m.Mode req] ∨
    ∃ v : Q, t = [.ConvertRequest m.Mode req, .jsonMarshal v]

/-- The lists of calls that the diagnostic capture can make. -/
def CaptureTrace (t : List (Event F U Q X E)) : Prop :=
  t = [] ∨ ∃ b : BodyStream, t = [.ioReadAll b]

/-- The eight ways a run of `RelayTextHelper` can end, each with the results of
the collaborators that select it. -/
inductive Path (w : World F U Q X E) (c : Context) (m : Meta) : Outcome F U Q X E → Prop where
  | validationFailed (err : GoError)
      (hv : w.getAndValidateTextRequest c m.Mode = .error err) :
      Path w c m
        { trace := [.getAndValidateTextRequest m.Mode],
          finalMeta := m,
          ret := some (w.ErrorWrapper err "invalid_text_request" StatusBadRequest) }
  | reservationDenied (req : GeneralOpenAIRequest X) (bizErr : E)
      (hv : w.getAndValidateTextRequest c m.Mode = .ok req)
      (hp : w.preConsumeQuota (normalize w m req).textRequest (normalize w m req).promptTokens
        (normalize w m req).ratio (normalize w m req).m = .error bizErr) :
      Path w c m
        { trace := .getAndValidateTextRequest m.Mode :: normalizeTrace w m req ++
            [.preConsumeQuota (normalize w m req).textRequest (normalize w m req).promptTokens
              (normalize w m req).ratio (normalize w m req).m (.error bizErr)],
          finalMeta := (normalize w m req).m,
          ret := some bizErr }
  | noAdaptor (req : GeneralOpenAIRequest X) (q : Int)
      (hv : w.getAndValidateTextRequest c m.Mode = .ok req)
      (hp : w.preConsumeQuota (normalize w m req).textRequest (normalize w m req).promptTokens
        (normalize w m req).ratio (normalize w m req).m = .ok q)
      (ha : w.GetAdaptor (normalize w m req).m.APIType = none) :
      Path w c m
        { trace := reservedPrefix w m req q ++ [.GetAdaptor (normalize w m req).m.APIType false],
          finalMeta := (normalize w m req).m,
          ret := some (w.ErrorWrapper
            ("invalid api type: " ++ toString (normalize w m req).m.APIType)
            "invalid_api_type" StatusBadRequest) }
  | convertFailed (req : GeneralOpenAIRequest X) (q : Int) (a : Adaptor U Q X E)
      (tb : List (Event F U Q X E)) (body : Option Reader) (err : GoError)
      (hv : w.getAndValidateTextRequest c m.Mode = .ok req)
      (hp : w.preConsumeQuota (normalize w m req).textRequest (normalize w m req).promptTokens
        (normalize w m req).ratio (normalize w m req).m = .ok q)
      (ha : w.GetAdaptor (normalize w m req).m.APIType = some a)
      (hb : getRequestBody w c (normalize w m req).m (normalize w m req).textRequest a =
        (tb, body, some err))
      (htb : BodyTrace (normalize w m req).m (normalize w m req).textRequest tb) :
      Path w c m
        { trace := reservedPrefix w m req q ++
            [.GetAdaptor (normalize w m req).m.APIType true, .Init (normalize w m req).m] ++ tb,
          finalMeta := (normalize w m req).m,
          ret := some (w.ErrorWrapper err "convert_request_failed" StatusInternalServerError) }
  | transportFailed (req : GeneralOpenAIRequest X) (q : Int) (a : Adaptor U Q X E)
      (tb : List (Event F U Q X E)) (body : Option Reader) (err : GoError)
      (hv : w.getAndValidateTextRequest c m.Mode = .ok req)
      (hp : w.preConsumeQuota (normalize w m req).textRequest (normalize w m req).promptTokens
        (normalize w m req).ratio (normalize w m req).m = .ok q)
      (ha : w.GetAdaptor (normalize w m req).m.APIType = some a)
      (hb : getRequestBody w c (normalize w m req).m (normalize w m req).textRequest a =
        (tb, body, none))
      (htb : BodyTrace (normalize w m req).m (normalize w m req).textRequest tb)
      (hd : a.DoRequest c (normalize w m req).m body = .error err) :
      Path w c m
        { trace := reservedPrefix w m req q ++
            [.GetAdaptor (normalize w m req).m.APIType true, .Init (normalize w m req).m] ++ tb ++
            [.DoRequest (normalize w m req).m body],
          finalMeta := (normalize w m req).m,
          ret := some (w.ErrorWrapper err "do_request_failed" StatusInternalServerError) }
  | classifiedFailure (req : GeneralOpenAIRequest X) (q : Int) (a : Adaptor U Q X E)
      (tb tc : List (Event F U Q X E)) (body : Option Reader) (resp : Option Response)
      (hv : w.getAndValidateTextRequest c m.Mode = .ok req)
      (hp : w.preConsumeQuota (normalize w m req).textRequest (normalize w m req).promptTokens
        (normalize w m req).ratio (normalize w m req).m = .ok q)
      (ha : w.GetAdaptor (normalize w m req).m.APIType = some a)
      (hb : getRequestBody w c (normalize w m req).m (normalize w m req).textRequest a =
        (tb, body, none))
      (htb : BodyTrace (normalize w m req).m (normalize w m req).textRequest tb)
      (hd : a.DoRequest c (normalize w m req).m body = .ok resp)
      (htc : CaptureTrace tc)
      (hc : w.isErrorHappened (normalize w m req).m (captureResponse w.DebugEnabled resp).2 = true) :
      Path w c m
        { trace := reservedPrefix w m req q ++
            [.GetAdaptor (normalize w m req).m.APIType true, .Init (normalize w m req).m] ++ tb ++
            [.DoRequest (normalize w m req).m body] ++ tc ++
            [.isErrorHappened (normalize w m req).m (captureResponse w.DebugEnabled resp).2,
             .ReturnPreConsumedQuota q m.TokenId,
             .RelayErrorHandler (captureResponse w.DebugEnabled resp).2],
          finalMeta := (normalize w m req).m,
          ret := some (w.RelayErrorHandler (captureResponse w.DebugEnabled resp).2) }
  | materializationFailed (req : GeneralOpenAIRequest X) (q : Int) (a : Adaptor U Q X E)
      (tb tc : List (Event F U Q X E)) (body : Option Reader) (resp : Option Response)
      (usage : U) (respErr : E)
      (hv : w.getAndValidateTextRequest c m.Mode = .ok req)
      (hp : w.preConsumeQuota (normalize w m req).textRequest (normalize w m req).promptTokens
        (normalize w m req).ratio (normalize w m req).m = .ok q)
      (ha : w.GetAdaptor (normalize w m req).m.APIType = some a)
      (hb : getRequestBody w c (normalize w m req).m (normalize w m req).textRequest a =
        (tb, body, none))
      (htb : BodyTrace (normalize w m req).m (normalize w m req).textRequest tb)
      (hd : a.DoRequest c (normalize w m req).m body = .ok resp)
      (htc : CaptureTrace tc)
      (hc : w.isErrorHappened (normalize w m req).m (captureResponse w.DebugEnabled resp).2 = false)
      (hr : a.DoResponse c (captureResponse w.DebugEnabled resp).2 (normalize w m req).m =
        (usage, some respErr)) :
      Path w c m
        { trace := reservedPrefix w m req q ++
            [.GetAdaptor (normalize w m req).m.APIType true, .Init (normalize w m req).m] ++ tb ++
            [.DoRequest (normalize w m req).m body] ++ tc ++
            [.isErrorHappened (normalize w m req).m (captureResponse w.DebugEnabled resp).2,
             .DoResponse (captureResponse w.DebugEnabled resp).2 (normalize w m req).m usage
               (some respErr),
             .ReturnPreConsumedQuota q m.TokenId],
          finalMeta := (normalize w m req).m,
          ret := some respErr }
  | settled (req : GeneralOpenAIRequest X) (q : Int) (a : Adaptor U Q X E)
      (tb tc : List (Event F U Q X E)) (body : Option Reader) (resp : Option Response)
      (usage : U)
      (hv : w.getAndValidateTextRequest c m.Mode = .ok req)
      (hp : w.preConsumeQuota (normalize w m req).textRequest (normalize w m req).promptTokens
        (normalize w m req).ratio (normalize w m req).m = .ok q)
      (ha : w.GetAdaptor (normalize w m req).m.APIType = some a)
      (hb : getRequestBody w c (normalize w m req).m (normalize w m req).textRequest a =
        (tb, body, none))
      (htb : BodyTrace (normalize w m req).m (normalize w m req).textRequest tb)
      (hd : a.DoRequest c (normalize w m req).m body = .ok resp)
      (htc : CaptureTrace tc)
      (hc : w.isErrorHappened (normalize w m req).m (captureResponse w.DebugEnabled resp).2 = false)
      (hr : a.DoResponse c (captureResponse w.DebugEnabled resp).2 (normalize w m req).m =
        (usage, none)) :
      Path w c m
        { trace := reservedPrefix w m req q ++
            [.GetAdaptor (normalize w m req).m.APIType true, .Init (normalize w m req).m] ++ tb ++
            [.DoRequest (normalize w m req).m body] ++ tc ++
            [.isErrorHappened (normalize w m req).m (captureResponse w.DebugEnabled resp).2,
             .DoResponse (captureResponse w.DebugEnabled resp).2 (normalize w m req).m usage none,
             .postConsumeQuota usage (normalize w m req).m (normalize w m req).textRequest
               (normalize w m req).ratio q (normalize w m req).modelRatio
               (normalize w m req).groupRatio (normalize w m req).systemPromptReset],
          finalMeta := (normalize w m req).m,
          ret := none }

/-! ## A concrete world, for the examples -/

/-- Modelled from the spec: `getMappedModelName` is not part of the file.  The
spec says that the client-declared model is looked up in the alias table of the
channel and that, if present, the mapped name replaces it. -/
def aliasLookup (name : String) (mapping : List (String × String)) : String × Bool :=
  match mapping.lookup name with
  | some mapped => (mapped, true)
  | none => (name, false)

/-- An adaptor for the examples: it converts requests of mode 1 only, answers
every request with `upstream`, and reads the whole response body to extract
the usage `(prompt tokens, completion tokens)`. -/
def demoAdaptor (upstream : Except GoError (Option Response)) :
    Adaptor (Int × Int) Bytes (List String) String where
  ConvertRequest := fun _ mode req =>
    if mode = 1 then .ok (req.Model.length.toUInt8 :: []) else .error "unsupported relay mode"
  DoRequest := fun _ _ _ => upstream
  DoResponse := fun _ resp _ =>
    match resp with
    | some r =>
      match r.Body with
      | some b =>
        match b.err with
        | none => ((100, 50), none)
        | some _ => ((0, 0), some "read_response_body_failed")
      | none => ((0, 0), some "empty_response_body")
    | none => ((0, 0), some "empty_response")

/-- A world for the examples.  The only adaptor is registered for the API type
0, which is also the canonical type; token 0 has no quota left. -/
def demoWorld (debugEnabled enforceIncludeUsage : Bool)
    (upstream : Except GoError (Option Response)) :
    World Int (Int × Int) Bytes (List String) String where
  DebugEnabled := debugEnabled
  EnforceIncludeUsage := enforceIncludeUsage
  apitypeOpenAI := 0
  channeltypeBaichuan := 26
  getAndValidateTextRequest := fun c _ =>
    if c.RequestBody.data = [] then .error "field messages is required"
    else .ok { Model := "model-a", Stream := false, Rest := ["hello"] }
  getMappedModelName := aliasLookup
  setSystemPrompt := fun rest prompt => if prompt = "" then (rest, false) else (prompt :: rest, true)
  GetModelRatio := fun name _ => if name = "model-a-v2" then 3 else 2
  GetGroupRatio := fun _ => 1
  fmul := fun a b => a * b
  getPromptTokens := fun _ _ => 100
  preConsumeQuota := fun _ promptTokens ratio m =>
    if m.TokenId = 0 then .error "insufficient_user_quota" else .ok (promptTokens * ratio)
  GetAdaptor := fun apiType => if apiType = 0 then some (demoAdaptor upstream) else none
  jsonMarshal := fun v => .ok v
  isErrorHappened := fun _ resp =>
    match resp with
    | some r => r.StatusCode != 200
    | none => true
  RelayErrorHandler := fun _ => "upstream_error"
  ErrorWrapper := fun _ code _ => code

/-- A request meta for the examples. -/
def demoMeta (mode apiType tokenId : Int) (mapping : List (String × String)) : Meta where
  Mode := mode
  ChannelType := 1
  APIType := apiType
  TokenId := tokenId
  Group := "default"
  ModelMapping := mapping
  ForcedSystemPrompt := ""
  IsStream := false
  OriginModelName := ""
  ActualModelName := ""
  PromptTokens := 0

/-- An inbound context with a non-empty body. -/
def demoContext : Context where
  RequestBody := { data := [123, 125], err := none }

/-- An inbound context with an empty body, which the validator rejects. -/
def emptyContext : Context where
  RequestBody := { data := [], err := none }

/-- An upstream response with the given status whose body is complete. -/
def completeResponse (status : Int) : Option Response :=
  some { StatusCode := status, Header := [], Body := some { data := [123, 125], err := none } }

/-- An upstream response with status 200 whose body breaks off with a read
error after one byte. -/
def truncatedResponse : Option Response :=
  some { StatusCode := 200, Header := [],
         Body := some { data := [123], err := some "unexpected EOF" } }

/-- The example request, as the validator of the example world returns it. -/
def demoRequest : GeneralOpenAIRequest (List String) :=
  { Model := "model-a", Stream := false, Rest := ["hello"] }

/-- A run that ends in a settlement: status 200, complete body. -/
def runSettled : Outcome Int (Int × Int) Bytes (List String) String :=
  RelayTextHelper (demoWorld false false (.ok (completeResponse 200))) demoContext
    (demoMeta 1 0 7 [])

/-- A run with the alias `model-a` to `model-a-v2`, which ends in a settlement. -/
def runAliased : Outcome Int (Int × Int) Bytes (List String) String :=
  RelayTextHelper (demoWorld false false (.ok (completeResponse 200))) demoContext
    (demoMeta 1 0 7 [("model-a", "model-a-v2")])

/-- A run whose request is rejected by the validator. -/
def runInvalid : Outcome Int (Int × Int) Bytes (List String) String :=
  RelayTextHelper (demoWorld false false (.ok (completeResponse 200))) emptyContext
    (demoMeta 1 0 7 [])

/-- A run whose reservation is denied: token 0 has no quota. -/
def runDenied : Outcome Int (Int × Int) Bytes (List String) String :=
  RelayTextHelper (demoWorld false false (.ok (completeResponse 200))) demoContext
    (demoMeta 1 0 0 [])

/-- A run for the API type 99, for which no adaptor is registered. -/
def runNoAdaptor : Outcome Int (Int × Int) Bytes (List String) String :=
  RelayTextHelper (demoWorld false false (.ok (completeResponse 200))) demoContext
    (demoMeta 1 99 7 [])

/-- A run of mode 2 with an alias: the conversion is forced and fails. -/
def runConvertFailed : Outcome Int (Int × Int) Bytes (List String) String :=
  RelayTextHelper (demoWorld false false (.ok (completeResponse 200))) demoContext
    (demoMeta 2 0 7 [("model-a", "model-a-v2")])

/-- A run whose network call fails. -/
def runTransportFailed : Outcome Int (Int × Int) Bytes (List String) String :=
  RelayTextHelper (demoWorld false false (.error "connection refused")) demoContext
    (demoMeta 1 0 7 [])

/-- A run whose upstream answers with status 500. -/
def runUpstreamError : Outcome Int (Int × Int) Bytes (List String) String :=
  RelayTextHelper (demoWorld false false (.ok (completeResponse 500))) demoContext
    (demoMeta 1 0 7 [])

/-- The run on the truncated response, with the diagnostic capture on or off. -/
def runTruncated (debugEnabled : Bool) : Outcome Int (Int × Int) Bytes (List String) String :=
  RelayTextHelper (demoWorld debugEnabled false (.ok truncatedResponse)) demoContext
    (demoMeta 1 0 7 [])

/-! ## Every run follows one of the paths -/

theorem normalize_TokenId (w : World F U Q X E) (m : Meta) (req : GeneralOpenAIRequest X) :
    (normalize w m req).m.TokenId = m.TokenId := rfl

theorem normalize_Mode (w : World F U Q X E) (m : Meta) (req : GeneralOpenAIRequest X) :
    (normalize w m req).m.Mode = m.Mode := rfl

theorem normalize_Model (w : World F U Q X E) (m : Meta) (req : GeneralOpenAIRequest X) :
    (normalize w m req).textRequest.Model = (w.getMappedModelName req.Model m.ModelMapping).1 :=
  rfl

theorem normalize_ratios (w : World F U Q X E) (m : Meta) (req : GeneralOpenAIRequest X) :
    (normalize w m req).modelRatio =
        w.GetModelRatio (w.getMappedModelName req.Model m.ModelMapping).1 m.ChannelType ∧
      (normalize w m req).groupRatio = w.GetGroupRatio m.Group ∧
      (normalize w m req).ratio =
        w.fmul (w.GetModelRatio (w.getMappedModelName req.Model m.ModelMapping).1 m.ChannelType)
          (w.GetGroupRatio m.Group) :=
  ⟨rfl, rfl, rfl⟩

theorem normalize_names (w : World F U Q X E) (m : Meta) (req : GeneralOpenAIRequest X) :
    (normalize w m req).m.OriginModelName = req.Model ∧
      (normalize w m req).m.ActualModelName =
        (w.getMappedModelName req.Model m.ModelMapping).1 :=
  ⟨rfl, rfl⟩

theorem bodyTrace_getRequestBody (w : World F U Q X E) (c : Context) (m : Meta)
    (req : GeneralOpenAIRequest X) (a : Adaptor U Q X E) :
    BodyTrace m req (getRequestBody w c m req a).1 := by
  unfold getRequestBody BodyTrace
  split
  · simp
  · split
    · simp
    · split <;> simp

theorem captureTrace_captureResponse (d : Bool) (resp : Option Response) :
    CaptureTrace
      ((captureResponse d resp).1.map (Event.ioReadAll : BodyStream → Event F U Q X E)) := by
  unfold captureResponse CaptureTrace
  split
  · split
    · split <;> simp
    · simp
  · simp

theorem path_RelayTextHelper (w : World F U Q X E) (c : Context) (m : Meta) :
    Path w c m (RelayTextHelper w c m) := by
  cases hv : w.getAndValidateTextRequest c m.Mode with
  | error err =>
    have h : Path w c m _ := Path.validationFailed err hv
    simpa [RelayTextHelper, hv] using h
  | ok req =>
    cases hp : w.preConsumeQuota (normalize w m req).textRequest (normalize w m req).promptTokens
        (normalize w m req).ratio (normalize w m req).m with
    | error bizErr =>
      have h : Path w c m _ := Path.reservationDenied req bizErr hv hp
      simpa [RelayTextHelper, hv, hp] using h
    | ok q =>
      cases ha : w.GetAdaptor (normalize w m req).m.APIType with
      | none =>
        have h : Path w c m _ := Path.noAdaptor req q hv hp ha
        simpa [RelayTextHelper, hv, hp, ha, reservedPrefix] using h
      | some a =>
        have htb := bodyTrace_getRequestBody w c (normalize w m req).m
          (normalize w m req).textRequest a
        rcases hb : getRequestBody w c (normalize w m req).m (normalize w m req).textRequest a
          with ⟨tb, body, berr⟩
        rw [hb] at htb
        cases berr with
        | some err =>
          have h : Path w c m _ := Path.convertFailed req q a tb body err hv hp ha hb htb
          simpa [RelayTextHelper, hv, hp, ha, hb, reservedPrefix] using h
        | none =>
          cases hd : a.DoRequest c (normalize w m req).m body with
          | error err =>
            have h : Path w c m _ := Path.transportFailed req q a tb body err hv hp ha hb htb hd
            simpa [RelayTextHelper, hv, hp, ha, hb, hd, reservedPrefix] using h
          | ok resp =>
            have htc : CaptureTrace ((captureResponse w.DebugEnabled resp).1.map
                (Event.ioReadAll : BodyStream → Event F U Q X E)) :=
              captureTrace_captureResponse w.DebugEnabled resp
            cases hc : w.isErrorHappened (normalize w m req).m
                (captureResponse w.DebugEnabled resp).2 with
            | true =>
              have h : Path w c m _ :=
                Path.classifiedFailure req q a tb _ body resp hv hp ha hb htb hd htc hc
              simpa [RelayTextHelper, hv, hp, ha, hb, hd, hc, afterTransport, reservedPrefix,
                normalize_TokenId] using h
            | false =>
              rcases hr : a.DoResponse c (captureResponse w.DebugEnabled resp).2
                (normalize w m req).m with ⟨usage, rerr⟩
              cases rerr with
              | some respErr =>
                have h : Path w c m _ :=
                  Path.materializationFailed req q a tb _ body resp usage respErr
                    hv hp ha hb htb hd htc hc hr
                simpa [RelayTextHelper, hv, hp, ha, hb, hd, hc, hr, afterTransport,
                  reservedPrefix, normalize_TokenId] using h
              | none =>
                have h : Path w c m _ :=
                  Path.settled req q a tb _ body resp usage hv hp ha hb htb hd htc hc hr
                simpa [RelayTextHelper, hv, hp, ha, hb, hd, hc, hr, afterTransport,
                  reservedPrefix] using h

/-! ## Supporting facts -/

/-- The capture changes nothing when the body of the response is absent or ends
without a read error. -/
theorem captureResponse_of_clean (d : Bool) (resp : Option Response)
    (h : ∀ r b, resp = some r → r.Body = some b → b.err = none) :
    (captureResponse d resp).2 = resp := by
  unfold captureResponse
  cases d with
  | false => simp
  | true =>
    cases resp with
    | none => simp
    | some r =>
      rcases r with ⟨status, header, body⟩
      cases body with
      | none => simp
      | some b =>
        rcases b with ⟨data, err⟩
        have herr : err = none := h _ _ rfl rfl
        subst herr
        simp [ioReadAll, nopCloserBuffer]

/-- The capture is the identity when `config.DebugEnabled` is off. -/
theorem captureResponse_off (resp : Option Response) :
    captureResponse false resp = ([], resp) := by
  simp [captureResponse]

set_option maxHeartbeats 1600000 in
/-- A refund is made only in a run that classified an upstream response: the
returns before the classification make none. -/
theorem refunds_only_after_classification (w : World F U Q X E) (c : Context) (m : Meta)
    (h : classifications (RelayTextHelper w c m).trace = []) :
    refunds (RelayTextHelper w c m).trace = [] := by
  have hp := path_RelayTextHelper w c m
  generalize RelayTextHelper w c m = out at hp h ⊢
  cases hp
  all_goals (try rcases ‹BodyTrace _ _ _› with rfl | rfl | ⟨v, rfl⟩)
  all_goals (try rcases ‹CaptureTrace _› with rfl | ⟨b, rfl⟩)
  all_goals simp [refunds, classifications, reservedPrefix, normalizeTrace] at h ⊢

/-! ## The claims -/

/-- Claim C4 (as stated, refuted): with `config.EnforceIncludeUsage` set, a
request that meets the four fast-path conditions is converted all the same:
`adaptor.ConvertRequest` and `json.Marshal` run and the inbound body is not the
result. -/
theorem fast_path_needs_enforce_off :
    (demoMeta 1 0 7 []).APIType = (demoWorld false true (.ok (completeResponse 200))).apitypeOpenAI ∧
    (demoMeta 1 0 7 []).OriginModelName = (demoMeta 1 0 7 []).ActualModelName ∧
    (demoMeta 1 0 7 []).ChannelType ≠
      (demoWorld false true (.ok (completeResponse 200))).channeltypeBaichuan ∧
    (demoMeta 1 0 7 []).ForcedSystemPrompt = "" ∧
    getRequestBody (demoWorld false true (.ok (completeResponse 200))) demoContext
        (demoMeta 1 0 7 []) { Model := "", Stream := false, Rest := [] }
        (demoAdaptor (.ok (completeResponse 200))) =
      ([.ConvertRequest 1 { Model := "", Stream := false, Rest := [] }, .jsonMarshal [0]],
        some (Reader.bytesBuffer [0]), none) := by
  refine ⟨rfl, rfl, by decide, rfl, rfl⟩

/-- Claim C4 (amended): when `config.EnforceIncludeUsage` is off, the API type
is the canonical one, the model was not substituted, the channel is not
Baichuan and no system prompt is forced, `getRequestBody` returns the inbound
body itself with no error and makes no call: neither `adaptor.ConvertRequest`
nor `json.Marshal` runs. -/
theorem fast_path (w : World F U Q X E) (c : Context) (m : Meta)
    (req : GeneralOpenAIRequest X) (a : Adaptor U Q X E)
    (henforce : w.EnforceIncludeUsage = false)
    (hapi : m.APIType = w.apitypeOpenAI)
    (hmodel : m.OriginModelName = m.ActualModelName)
    (hchannel : m.ChannelType ≠ w.channeltypeBaichuan)
    (hprompt : m.ForcedSystemPrompt = "") :
    getRequestBody w c m req a = ([], some (Reader.requestBody c.RequestBody), none) := by
  simp [getRequestBody, henforce, hapi, hmodel, hchannel, hprompt]

/-- Witness of C4 (amended): the example world with `EnforceIncludeUsage` off. -/
theorem fast_path_witness :
    getRequestBody (demoWorld false false (.ok (completeResponse 200))) demoContext
        (demoMeta 1 0 7 []) { Model := "", Stream := false, Rest := [] }
        (demoAdaptor (.ok (completeResponse 200))) =
      ([], some (Reader.requestBody { data := [123, 125], err := none }), none) :=
  fast_path (demoWorld false false (.ok (completeResponse 200))) demoContext
    (demoMeta 1 0 7 []) { Model := "", Stream := false, Rest := [] }
    (demoAdaptor (.ok (completeResponse 200))) rfl rfl rfl (by decide) rfl

/-- Claim C5: when the API type is not the canonical one, or the model was
substituted, or the channel is Baichuan, or a system prompt is forced,
`getRequestBody` calls `adaptor.ConvertRequest` with the mode and the request;
the result is the conversion error or the serialization error with a nil body,
or a buffer over exactly the serialization of the converted request; it is
never the inbound body. -/
theorem conversion_forced (w : World F U Q X E) (c : Context) (m : Meta)
    (req : GeneralOpenAIRequest X) (a : Adaptor U Q X E)
    (h : m.APIType ≠ w.apitypeOpenAI ∨ m.OriginModelName ≠ m.ActualModelName ∨
      m.ChannelType = w.channeltypeBaichuan ∨ m.ForcedSystemPrompt ≠ "") :
    conversions (getRequestBody w c m req a).1 = [(m.Mode, req)] ∧
    (∀ err, a.ConvertRequest c m.Mode req = .error err →
      (getRequestBody w c m req a).2 = (none, some err) ∧
      marshals (getRequestBody w c m req a).1 = []) ∧
    (∀ v err, a.ConvertRequest c m.Mode req = .ok v → w.jsonMarshal v = .error err →
      (getRequestBody w c m req a).2 = (none, some err) ∧
      marshals (getRequestBody w c m req a).1 = [v]) ∧
    (∀ v data, a.ConvertRequest c m.Mode req = .ok v → w.jsonMarshal v = .ok data →
      (getRequestBody w c m req a).2 = (some (Reader.bytesBuffer data), none) ∧
      marshals (getRequestBody w c m req a).1 = [v]) ∧
    (getRequestBody w c m req a).2.1 ≠ some (Reader.requestBody c.RequestBody) := by
  have hcond : (!w.EnforceIncludeUsage &&
      decide (m.APIType = w.apitypeOpenAI) &&
      decide (m.OriginModelName = m.ActualModelName) &&
      decide (m.ChannelType ≠ w.channeltypeBaichuan) &&
      decide (m.ForcedSystemPrompt = "")) = false := by
    rcases h with h | h | h | h <;> simp [h]
  unfold getRequestBody
  rw [hcond]
  cases hc : a.ConvertRequest c m.Mode req with
  | error err => simp [conversions, marshals]
  | ok v =>
    cases hj : w.jsonMarshal v with
    | error err =>
      simp only [conversions, marshals, hj]
      refine ⟨by simp, by simp, ?_, ?_, by simp⟩
      · intro v' err' hv' hj'
        cases hv'; rw [hj] at hj'; cases hj'; simp
      · intro v' data hv' hj'
        cases hv'; rw [hj] at hj'; cases hj'
    | ok data =>
      simp only [conversions, marshals, hj]
      refine ⟨by simp, by simp, ?_, ?_, by simp⟩
      · intro v' err' hv' hj'
        cases hv'; rw [hj] at hj'; cases hj'
      · intro v' data' hv' hj'
        cases hv'; rw [hj] at hj'; cases hj'; simp

/-- Witness of C5: a substituted model forces the conversion in the example world. -/
theorem conversion_forced_witness :
    conversions (getRequestBody (demoWorld false false (.ok (completeResponse 200))) demoContext
        { demoMeta 1 0 7 [] with OriginModelName := "model-a", ActualModelName := "model-a-v2" }
        { Model := "model-a-v2", Stream := false, Rest := [] }
        (demoAdaptor (.ok (completeResponse 200)))).1 =
      [(1, { Model := "model-a-v2", Stream := false, Rest := [] })] :=
  (conversion_forced (demoWorld false false (.ok (completeResponse 200))) demoContext
    { demoMeta 1 0 7 [] with OriginModelName := "model-a", ActualModelName := "model-a-v2" }
    { Model := "model-a-v2", Stream := false, Rest := [] }
    (demoAdaptor (.ok (completeResponse 200))) (Or.inr (Or.inl (by decide)))).1

/-- Claim C3: after a successful transport call, a classified failure and a
failed materialization each refund exactly the reserved amount to the token,
exactly once, start no settlement and return a non-nil error: the result of
`RelayErrorHandler` (without a call of `DoResponse`) in the first case, the
error of `DoResponse` in the second. -/
theorem refund_on_upstream_failure (w : World F U Q X E) (c : Context) (m : Meta)
    (req : GeneralOpenAIRequest X) (q : Int) (a : Adaptor U Q X E) (body : Option Reader)
    (resp : Option Response)
    (hv : w.getAndValidateTextRequest c m.Mode = .ok req)
    (hp : w.preConsumeQuota (normalize w m req).textRequest (normalize w m req).promptTokens
      (normalize w m req).ratio (normalize w m req).m = .ok q)
    (ha : w.GetAdaptor (normalize w m req).m.APIType = some a)
    (hb : (getRequestBody w c (normalize w m req).m (normalize w m req).textRequest a).2 =
      (body, none))
    (hd : a.DoRequest c (normalize w m req).m body = .ok resp) :
    (w.isErrorHappened (normalize w m req).m (captureResponse w.DebugEnabled resp).2 = true →
      refunds (RelayTextHelper w c m).trace = [(q, m.TokenId)] ∧
      settlements (RelayTextHelper w c m).trace = [] ∧
      materializations (RelayTextHelper w c m).trace = [] ∧
      (RelayTextHelper w c m).ret =
        some (w.RelayErrorHandler (captureResponse w.DebugEnabled resp).2)) ∧
    (w.isErrorHappened (normalize w m req).m (captureResponse w.DebugEnabled resp).2 = false →
      ∀ usage respErr,
        a.DoResponse c (captureResponse w.DebugEnabled resp).2 (normalize w m req).m =
          (usage, some respErr) →
        refunds (RelayTextHelper w c m).trace = [(q, m.TokenId)] ∧
        settlements (RelayTextHelper w c m).trace = [] ∧
        materializations (RelayTextHelper w c m).trace =
          [((captureResponse w.DebugEnabled resp).2, usage, some respErr)] ∧
        (RelayTextHelper w c m).ret = some respErr) := by
  have h := path_RelayTextHelper w c m
  generalize RelayTextHelper w c m = out at h ⊢
  cases h with
  | validationFailed err hv' => rw [hv] at hv'; cases hv'
  | reservationDenied req' bizErr hv' hp' =>
    rw [hv] at hv'; cases hv'; rw [hp] at hp'; cases hp'
  | noAdaptor req' q' hv' hp' ha' =>
    rw [hv] at hv'; cases hv'; rw [ha] at ha'; cases ha'
  | convertFailed req' q' a' tb body' err hv' hp' ha' hb' htb =>
    rw [hv] at hv'; cases hv'; rw [ha] at ha'; cases ha'
    rw [hb'] at hb; cases hb
  | transportFailed req' q' a' tb body' err hv' hp' ha' hb' htb hd' =>
    rw [hv] at hv'; cases hv'; rw [ha] at ha'; cases ha'
    rw [hb'] at hb; cases hb; rw [hd] at hd'; cases hd'
  | classifiedFailure req' q' a' tb tc body' resp' hv' hp' ha' hb' htb hd' htc hc =>
    rw [hv] at hv'; cases hv'; rw [hp] at hp'; cases hp'; rw [ha] at ha'; cases ha'
    rw [hb'] at hb; cases hb; rw [hd] at hd'; cases hd'
    rcases htb with rfl | rfl | ⟨v, rfl⟩ <;> rcases htc with rfl | ⟨b, rfl⟩ <;>
      simp [hc, refunds, settlements, materializations, reservedPrefix, normalizeTrace]
  | materializationFailed req' q' a' tb tc body' resp' usage respErr hv' hp' ha' hb' htb hd' htc
      hc hr =>
    rw [hv] at hv'; cases hv'; rw [hp] at hp'; cases hp'; rw [ha] at ha'; cases ha'
    rw [hb'] at hb; cases hb; rw [hd] at hd'; cases hd'
    rcases htb with rfl | rfl | ⟨v, rfl⟩ <;> rcases htc with rfl | ⟨b, rfl⟩ <;>
      simp [hc, hr, refunds, settlements, materializations, reservedPrefix, normalizeTrace]
  | settled req' q' a' tb tc body' resp' usage hv' hp' ha' hb' htb hd' htc hc hr =>
    rw [hv] at hv'; cases hv'; rw [hp] at hp'; cases hp'; rw [ha] at ha'; cases ha'
    rw [hb'] at hb; cases hb; rw [hd] at hd'; cases hd'
    rcases htb with rfl | rfl | ⟨v, rfl⟩ <;> rcases htc with rfl | ⟨b, rfl⟩ <;>
      simp [hc, hr, refunds, settlements, materializations, reservedPrefix, normalizeTrace]

set_option maxHeartbeats 1600000 in
/-- Claim C6: admission gating.  A failed validation returns the 400
`invalid_text_request` error with no reservation, refund, settlement, adaptor
lookup or network call; a denied reservation returns the reservation error
unchanged with no adaptor lookup, network call, refund or settlement;
`preConsumeQuota` is called only when the validation succeeded; and
`adaptor.DoRequest` is called only when `preConsumeQuota` returned no error,
after that call. -/
theorem admission_gating (w : World F U Q X E) (c : Context) (m : Meta) :
    (∀ err, w.getAndValidateTextRequest c m.Mode = .error err →
      (RelayTextHelper w c m).ret =
        some (w.ErrorWrapper err "invalid_text_request" StatusBadRequest) ∧
      reservations (RelayTextHelper w c m).trace = [] ∧
      refunds (RelayTextHelper w c m).trace = [] ∧
      settlements (RelayTextHelper w c m).trace = [] ∧
      adaptorLookups (RelayTextHelper w c m).trace = [] ∧
      networkCalls (RelayTextHelper w c m).trace = []) ∧
    (∀ req, w.getAndValidateTextRequest c m.Mode = .ok req → ∀ bizErr,
      w.preConsumeQuota (normalize w m req).textRequest (normalize w m req).promptTokens
        (normalize w m req).ratio (normalize w m req).m = .error bizErr →
      (RelayTextHelper w c m).ret = some bizErr ∧
      adaptorLookups (RelayTextHelper w c m).trace = [] ∧
      networkCalls (RelayTextHelper w c m).trace = [] ∧
      refunds (RelayTextHelper w c m).trace = [] ∧
      settlements (RelayTextHelper w c m).trace = []) ∧
    (reservations (RelayTextHelper w c m).trace ≠ [] →
      ∃ req, w.getAndValidateTextRequest c m.Mode = .ok req) ∧
    (networkCalls (RelayTextHelper w c m).trace ≠ [] →
      ∃ req q, w.getAndValidateTextRequest c m.Mode = .ok req ∧
        w.preConsumeQuota (normalize w m req).textRequest (normalize w m req).promptTokens
          (normalize w m req).ratio (normalize w m req).m = .ok q ∧
        reserved ((RelayTextHelper w c m).trace.takeWhile fun e => !e.isNetworkCall) = [q]) := by
  have h := path_RelayTextHelper w c m
  generalize RelayTextHelper w c m = out at h ⊢
  cases h with
  | validationFailed err hv =>
    simp [hv, reservations, refunds, settlements, adaptorLookups, networkCalls]
  | reservationDenied req bizErr hv hp =>
    simp [hv, hp, reservations, refunds, settlements, adaptorLookups, networkCalls,
      normalizeTrace]
  | noAdaptor req q hv hp ha =>
    simp [hv, hp, reservations, refunds, settlements, adaptorLookups, networkCalls,
      normalizeTrace, reservedPrefix]
  | convertFailed req q a tb body err hv hp ha hb htb =>
    rcases htb with rfl | rfl | ⟨v, rfl⟩ <;>
      simp [hv, hp, reservations, refunds, settlements, adaptorLookups, networkCalls,
        normalizeTrace, reservedPrefix]
  | transportFailed req q a tb body err hv hp ha hb htb hd =>
    rcases htb with rfl | rfl | ⟨v, rfl⟩ <;>
      simp [hv, hp, reservations, refunds, settlements, adaptorLookups, networkCalls,
        normalizeTrace, reservedPrefix, reserved, Event.isNetworkCall]
  | classifiedFailure req q a tb tc body resp hv hp ha hb htb hd htc hc =>
    rcases htb with rfl | rfl | ⟨v, rfl⟩ <;> rcases htc with rfl | ⟨b, rfl⟩ <;>
      simp [hv, hp, reservations, refunds, settlements, adaptorLookups, networkCalls,
        normalizeTrace, reservedPrefix, reserved, Event.isNetworkCall]
  | materializationFailed req q a tb tc body resp usage respErr hv hp ha hb htb hd htc hc hr =>
    rcases htb with rfl | rfl | ⟨v, rfl⟩ <;> rcases htc with rfl | ⟨b, rfl⟩ <;>
      simp [hv, hp, reservations, refunds, settlements, adaptorLookups, networkCalls,
        normalizeTrace, reservedPrefix, reserved, Event.isNetworkCall]
  | settled req q a tb tc body resp usage hv hp ha hb htb hd htc hc hr =>
    rcases htb with rfl | rfl | ⟨v, rfl⟩ <;> rcases htc with rfl | ⟨b, rfl⟩ <;>
      simp [hv, hp, reservations, refunds, settlements, adaptorLookups, networkCalls,
        normalizeTrace, reservedPrefix, reserved, Event.isNetworkCall]

/-- Claim C7: settlement is scheduled if and only if materialization
succeeded.  When `adaptor.DoResponse` returns a nil error, `postConsumeQuota`
is started exactly once, with the usage that `DoResponse` returned and the
amount that `preConsumeQuota` reserved, no refund is made and the helper
returns nil.  When no call of `DoResponse` returns a nil error, no settlement
is started and the helper returns a non-nil error.  `DoResponse` is called at
most once. -/
theorem settlement_iff_materialized (w : World F U Q X E) (c : Context) (m : Meta) :
    (∀ resp usage, (resp, usage, none) ∈ materializations (RelayTextHelper w c m).trace →
      ∃ q, reserved (RelayTextHelper w c m).trace = [q] ∧
        settlements (RelayTextHelper w c m).trace = [(usage, q)] ∧
        refunds (RelayTextHelper w c m).trace = [] ∧
        (RelayTextHelper w c m).ret = none) ∧
    ((∀ resp usage, (resp, usage, none) ∉ materializations (RelayTextHelper w c m).trace) →
      settlements (RelayTextHelper w c m).trace = [] ∧ (RelayTextHelper w c m).ret ≠ none) ∧
    (materializations (RelayTextHelper w c m).trace).length ≤ 1 := by
  have h := path_RelayTextHelper w c m
  generalize RelayTextHelper w c m = out at h ⊢
  cases h
  all_goals (try rcases ‹BodyTrace _ _ _› with rfl | rfl | ⟨v, rfl⟩)
  all_goals (try rcases ‹CaptureTrace _› with rfl | ⟨b, rfl⟩)
  all_goals simp [refunds, settlements, reserved, materializations, reservedPrefix, normalizeTrace]

set_option maxHeartbeats 1600000 in
/-- Claim C8: ratio pinning.  In a run that reaches settlement,
`GetModelRatio` and `GetGroupRatio` are each queried exactly once, before the
reservation, with the mapped model and the channel type, and with the group;
the ratio handed to `postConsumeQuota` is the ratio handed to
`preConsumeQuota`, the product of the two query results, and the model ratio
and group ratio handed to the settlement are those two results. -/
theorem ratio_pinned (w : World F U Q X E) (c : Context) (m : Meta)
    (req : GeneralOpenAIRequest X)
    (hv : w.getAndValidateTextRequest c m.Mode = .ok req)
    (hs : settlements (RelayTextHelper w c m).trace ≠ []) :
      modelRatioQueries (RelayTextHelper w c m).trace =
        [((w.getMappedModelName req.Model m.ModelMapping).1, m.ChannelType)] ∧
      groupRatioQueries (RelayTextHelper w c m).trace = [m.Group] ∧
      modelRatioQueries ((RelayTextHelper w c m).trace.takeWhile fun e => !e.isReservation) =
        [((w.getMappedModelName req.Model m.ModelMapping).1, m.ChannelType)] ∧
      groupRatioQueries ((RelayTextHelper w c m).trace.takeWhile fun e => !e.isReservation) =
        [m.Group] ∧
      reservations (RelayTextHelper w c m).trace =
        [((w.getMappedModelName req.Model m.ModelMapping).1, (normalize w m req).promptTokens,
          w.fmul (w.GetModelRatio (w.getMappedModelName req.Model m.ModelMapping).1 m.ChannelType)
            (w.GetGroupRatio m.Group))] ∧
      settlementRatios (RelayTextHelper w c m).trace =
        [(w.fmul (w.GetModelRatio (w.getMappedModelName req.Model m.ModelMapping).1 m.ChannelType)
            (w.GetGroupRatio m.Group),
          w.GetModelRatio (w.getMappedModelName req.Model m.ModelMapping).1 m.ChannelType,
          w.GetGroupRatio m.Group)] := by
  have h := path_RelayTextHelper w c m
  generalize RelayTextHelper w c m = out at h hs ⊢
  cases h with
  | validationFailed err hv0 => simp [settlements] at hs
  | reservationDenied req0 bizErr hv0 hp => simp [settlements, normalizeTrace] at hs
  | noAdaptor req0 q hv0 hp ha => simp [settlements, normalizeTrace, reservedPrefix] at hs
  | convertFailed req0 q a tb body err hv0 hp ha hb htb =>
    rcases htb with rfl | rfl | ⟨v, rfl⟩ <;>
      simp [settlements, normalizeTrace, reservedPrefix] at hs
  | transportFailed req0 q a tb body err hv0 hp ha hb htb hd =>
    rcases htb with rfl | rfl | ⟨v, rfl⟩ <;>
      simp [settlements, normalizeTrace, reservedPrefix] at hs
  | classifiedFailure req0 q a tb tc body resp hv0 hp ha hb htb hd htc hc =>
    rcases htb with rfl | rfl | ⟨v, rfl⟩ <;> rcases htc with rfl | ⟨b, rfl⟩ <;>
      simp [settlements, normalizeTrace, reservedPrefix] at hs
  | materializationFailed req0 q a tb tc body resp usage respErr hv0 hp ha hb htb hd htc hc hr =>
    rcases htb with rfl | rfl | ⟨v, rfl⟩ <;> rcases htc with rfl | ⟨b, rfl⟩ <;>
      simp [settlements, normalizeTrace, reservedPrefix] at hs
  | settled req' q a tb tc body resp usage hv' hp ha hb htb hd htc hc hr =>
    rw [hv] at hv'; cases hv'
    rcases htb with rfl | rfl | ⟨v, rfl⟩ <;> rcases htc with rfl | ⟨b, rfl⟩ <;>
      simp [modelRatioQueries, groupRatioQueries, reservations, settlementRatios,
        normalizeTrace, reservedPrefix, Event.isReservation, normalize_Model,
        (normalize_ratios w m req).1, (normalize_ratios w m req).2.1,
        (normalize_ratios w m req).2.2]

set_option maxHeartbeats 1600000 in
/-- Claim C10: model-alias substitution.  For a validated request with
client-declared model `req.Model`, the run leaves `meta.OriginModelName` equal
to that model and `meta.ActualModelName` and `textRequest.Model` equal to the
name returned by `getMappedModelName`; `GetModelRatio`, `getPromptTokens`,
`preConsumeQuota` and `adaptor.ConvertRequest` all receive the mapped name. -/
theorem alias_substitution (w : World F U Q X E) (c : Context) (m : Meta)
    (req : GeneralOpenAIRequest X)
    (hv : w.getAndValidateTextRequest c m.Mode = .ok req) :
    (RelayTextHelper w c m).finalMeta.OriginModelName = req.Model ∧
    (RelayTextHelper w c m).finalMeta.ActualModelName =
      (w.getMappedModelName req.Model m.ModelMapping).1 ∧
    (normalize w m req).textRequest.Model = (w.getMappedModelName req.Model m.ModelMapping).1 ∧
    modelRatioQueries (RelayTextHelper w c m).trace =
      [((w.getMappedModelName req.Model m.ModelMapping).1, m.ChannelType)] ∧
    promptEstimates (RelayTextHelper w c m).trace = [((normalize w m req).textRequest, m.Mode)] ∧
    reservations (RelayTextHelper w c m).trace =
      [((w.getMappedModelName req.Model m.ModelMapping).1, (normalize w m req).promptTokens,
        (normalize w m req).ratio)] ∧
    (∀ mode r, (mode, r) ∈ conversions (RelayTextHelper w c m).trace →
      mode = m.Mode ∧ r = (normalize w m req).textRequest ∧
      r.Model = (w.getMappedModelName req.Model m.ModelMapping).1) := by
  have h := path_RelayTextHelper w c m
  generalize RelayTextHelper w c m = out at h ⊢
  cases h with
  | validationFailed err hv' => rw [hv] at hv'; cases hv'
  | reservationDenied req' bizErr hv' hp =>
    rw [hv] at hv'; cases hv'
    simp [modelRatioQueries, promptEstimates, reservations, conversions, normalizeTrace,
      normalize_Model, (normalize_names w m req).1, (normalize_names w m req).2]
  | noAdaptor req' q hv' hp ha =>
    rw [hv] at hv'; cases hv'
    simp [modelRatioQueries, promptEstimates, reservations, conversions, normalizeTrace,
      reservedPrefix, normalize_Model, normalize_Mode, (normalize_names w m req).1, (normalize_names w m req).2]
  | convertFailed req' q a tb body err hv' hp ha hb htb =>
    rw [hv] at hv'; cases hv'
    rcases htb with rfl | rfl | ⟨v, rfl⟩ <;>
    simp [modelRatioQueries, promptEstimates, reservations, conversions, normalizeTrace,
      reservedPrefix, normalize_Model, normalize_Mode, (normalize_names w m req).1, (normalize_names w m req).2]
  | transportFailed req' q a tb body err hv' hp ha hb htb hd =>
    rw [hv] at hv'; cases hv'
    rcases htb with rfl | rfl | ⟨v, rfl⟩ <;>
    simp [modelRatioQueries, promptEstimates, reservations, conversions, normalizeTrace,
      reservedPrefix, normalize_Model, normalize_Mode, (normalize_names w m req).1, (normalize_names w m req).2]
  | classifiedFailure req' q a tb tc body resp hv' hp ha hb htb hd htc hc =>
    rw [hv] at hv'; cases hv'
    rcases htb with rfl | rfl | ⟨v, rfl⟩ <;> rcases htc with rfl | ⟨b, rfl⟩ <;>
    simp [modelRatioQueries, promptEstimates, reservations, conversions, normalizeTrace,
      reservedPrefix, normalize_Model, normalize_Mode, (normalize_names w m req).1, (normalize_names w m req).2]
  | materializationFailed req' q a tb tc body resp usage respErr hv' hp ha hb htb hd htc hc hr =>
    rw [hv] at hv'; cases hv'
    rcases htb with rfl | rfl | ⟨v, rfl⟩ <;> rcases htc with rfl | ⟨b, rfl⟩ <;>
    simp [modelRatioQueries, promptEstimates, reservations, conversions, normalizeTrace,
      reservedPrefix, normalize_Model, normalize_Mode, (normalize_names w m req).1, (normalize_names w m req).2]
  | settled req' q a tb tc body resp usage hv' hp ha hb htb hd htc hc hr =>
    rw [hv] at hv'; cases hv'
    rcases htb with rfl | rfl | ⟨v, rfl⟩ <;> rcases htc with rfl | ⟨b, rfl⟩ <;>
    simp [modelRatioQueries, promptEstimates, reservations, conversions, normalizeTrace,
      reservedPrefix, normalize_Model, normalize_Mode, (normalize_names w m req).1, (normalize_names w m req).2]

/-- Claim C1 (the code at the failing input): for an API type without adaptor
the run reserves 200, looks the adaptor up, and returns the
`invalid_api_type` error with no call of `billing.ReturnPreConsumedQuota`. -/
theorem missing_adaptor_keeps_reservation :
    reserved runNoAdaptor.trace = [200] ∧
    adaptorLookups runNoAdaptor.trace = [99] ∧
    refunds runNoAdaptor.trace = [] ∧
    settlements runNoAdaptor.trace = [] ∧
    runNoAdaptor.ret = some "invalid_api_type" := by
  decide

/-- Claim C2 (the code at the failing inputs): a failed conversion and a failed
network call each return their error after a successful reservation with no
call of `billing.ReturnPreConsumedQuota`. -/
theorem request_failure_keeps_reservation :
    (reserved runConvertFailed.trace = [300] ∧
      conversions runConvertFailed.trace =
        [(2, { Model := "model-a-v2", Stream := false, Rest := ["hello"] })] ∧
      networkCalls runConvertFailed.trace = [] ∧
      refunds runConvertFailed.trace = [] ∧
      settlements runConvertFailed.trace = [] ∧
      runConvertFailed.ret = some "convert_request_failed") ∧
    (reserved runTransportFailed.trace = [200] ∧
      networkCalls runTransportFailed.trace =
        [some (Reader.requestBody { data := [123, 125], err := none })] ∧
      refunds runTransportFailed.trace = [] ∧
      settlements runTransportFailed.trace = [] ∧
      runTransportFailed.ret = some "do_request_failed") := by
  decide

/-- Claim C9 (the code at the failing input): for a response whose body breaks
off with a read error, the capture hands the later steps a body that ends
cleanly.  With the capture off the run refunds and returns the read failure;
with it on the run settles and returns nil. -/
theorem capture_hides_read_error :
    (captureResponse false truncatedResponse).2 = truncatedResponse ∧
    (captureResponse true truncatedResponse).2 =
      some { StatusCode := 200, Header := [], Body := some { data := [123], err := none } } ∧
    classifications (runTruncated false).trace = [truncatedResponse] ∧
    classifications (runTruncated true).trace =
      [some { StatusCode := 200, Header := [], Body := some { data := [123], err := none } }] ∧
    ((runTruncated false).ret = some "read_response_body_failed" ∧
      refunds (runTruncated false).trace = [(200, 7)] ∧
      settlements (runTruncated false).trace = []) ∧
    ((runTruncated true).ret = none ∧
      refunds (runTruncated true).trace = [] ∧
      settlements (runTruncated true).trace = [((100, 50), 200)]) := by
  decide

/-! ## The claims at concrete inputs -/

/-- Witness of C3: an upstream answer with status 500 is refunded and reported
through `RelayErrorHandler`; a body that cannot be read is refunded and the
error of `DoResponse` is returned. -/
theorem refund_on_upstream_failure_witness :
    (refunds runUpstreamError.trace = [(200, 7)] ∧
      settlements runUpstreamError.trace = [] ∧
      materializations runUpstreamError.trace = [] ∧
      runUpstreamError.ret = some "upstream_error") ∧
    (refunds (runTruncated false).trace = [(200, 7)] ∧
      settlements (runTruncated false).trace = [] ∧
      materializations (runTruncated false).trace =
        [(truncatedResponse, (0, 0), some "read_response_body_failed")] ∧
      (runTruncated false).ret = some "read_response_body_failed") :=
  ⟨(refund_on_upstream_failure (demoWorld false false (.ok (completeResponse 500))) demoContext
      (demoMeta 1 0 7 []) demoRequest 200 (demoAdaptor (.ok (completeResponse 500)))
      (some (Reader.requestBody demoContext.RequestBody)) (completeResponse 500)
      rfl rfl rfl rfl rfl).1 rfl,
   (refund_on_upstream_failure (demoWorld false false (.ok truncatedResponse)) demoContext
      (demoMeta 1 0 7 []) demoRequest 200 (demoAdaptor (.ok truncatedResponse))
      (some (Reader.requestBody demoContext.RequestBody)) truncatedResponse
      rfl rfl rfl rfl rfl).2 rfl (0, 0) "read_response_body_failed" rfl⟩

/-- Witness of C6: the rejected request and the denied reservation of the
example world, and the settled run, whose network call follows the reservation
of 200. -/
theorem admission_gating_witness :
    (runInvalid.ret = some "invalid_text_request" ∧
      reservations runInvalid.trace = [] ∧
      refunds runInvalid.trace = [] ∧
      settlements runInvalid.trace = [] ∧
      adaptorLookups runInvalid.trace = [] ∧
      networkCalls runInvalid.trace = []) ∧
    (runDenied.ret = some "insufficient_user_quota" ∧
      adaptorLookups runDenied.trace = [] ∧
      networkCalls runDenied.trace = [] ∧
      refunds runDenied.trace = [] ∧
      settlements runDenied.trace = []) ∧
    (∃ req q,
      (demoWorld false false (.ok (completeResponse 200))).getAndValidateTextRequest demoContext
        (demoMeta 1 0 7 []).Mode = .ok req ∧
      (demoWorld false false (.ok (completeResponse 200))).preConsumeQuota
        (normalize (demoWorld false false (.ok (completeResponse 200))) (demoMeta 1 0 7 [])
          req).textRequest
        (normalize (demoWorld false false (.ok (completeResponse 200))) (demoMeta 1 0 7 [])
          req).promptTokens
        (normalize (demoWorld false false (.ok (completeResponse 200))) (demoMeta 1 0 7 [])
          req).ratio
        (normalize (demoWorld false false (.ok (completeResponse 200))) (demoMeta 1 0 7 [])
          req).m = .ok q ∧
      reserved (runSettled.trace.takeWhile fun e => !e.isNetworkCall) = [q]) :=
  ⟨(admission_gating (demoWorld false false (.ok (completeResponse 200))) emptyContext
      (demoMeta 1 0 7 [])).1 "field messages is required" rfl,
   (admission_gating (demoWorld false false (.ok (completeResponse 200))) demoContext
      (demoMeta 1 0 0 [])).2.1 demoRequest rfl "insufficient_user_quota" rfl,
   (admission_gating (demoWorld false false (.ok (completeResponse 200))) demoContext
      (demoMeta 1 0 7 [])).2.2.2 (by decide)⟩

/-- Witness of C7: the settled run of the example world. -/
theorem settlement_iff_materialized_witness :
    (∃ q, reserved runSettled.trace = [q] ∧
      settlements runSettled.trace = [((100, 50), q)] ∧
      refunds runSettled.trace = [] ∧
      runSettled.ret = none) ∧
    (settlements runUpstreamError.trace = [] ∧ runUpstreamError.ret ≠ none) :=
  ⟨(settlement_iff_materialized (demoWorld false false (.ok (completeResponse 200))) demoContext
      (demoMeta 1 0 7 [])).1 (completeResponse 200) (100, 50) (by decide),
   (settlement_iff_materialized (demoWorld false false (.ok (completeResponse 500))) demoContext
      (demoMeta 1 0 7 [])).2.1 (fun _ _ h => List.not_mem_nil _ h)⟩

/-- Witness of C8: the aliased run of the example world prices and settles at
ratio 3, the product of the model ratio 3 and the group ratio 1. -/
theorem ratio_pinned_witness :
    modelRatioQueries runAliased.trace = [("model-a-v2", 1)] ∧
    groupRatioQueries runAliased.trace = ["default"] ∧
    modelRatioQueries (runAliased.trace.takeWhile fun e => !e.isReservation) =
      [("model-a-v2", 1)] ∧
    groupRatioQueries (runAliased.trace.takeWhile fun e => !e.isReservation) = ["default"] ∧
    reservations runAliased.trace = [("model-a-v2", 100, 3)] ∧
    settlementRatios runAliased.trace = [(3, 3, 1)] :=
  ratio_pinned (demoWorld false false (.ok (completeResponse 200))) demoContext
    (demoMeta 1 0 7 [("model-a", "model-a-v2")]) demoRequest rfl (by decide)

/-- Witness of C10: the alias `model-a` to `model-a-v2` gives the origin model
`model-a` and the actual model `model-a-v2`. -/
theorem alias_substitution_witness :
    runAliased.finalMeta.OriginModelName = "model-a" ∧
    runAliased.finalMeta.ActualModelName = "model-a-v2" ∧
    modelRatioQueries runAliased.trace = [("model-a-v2", 1)] :=
  ⟨(alias_substitution (demoWorld false false (.ok (completeResponse 200))) demoContext
      (demoMeta 1 0 7 [("model-a", "model-a-v2")]) demoRequest rfl).1,
   (alias_substitution (demoWorld false false (.ok (completeResponse 200))) demoContext
      (demoMeta 1 0 7 [("model-a", "model-a-v2")]) demoRequest rfl).2.1,
   (alias_substitution (demoWorld false false (.ok (completeResponse 200))) demoContext
      (demoMeta 1 0 7 [("model-a", "model-a-v2")]) demoRequest rfl).2.2.2.1⟩

end Code

end OneApi
